import Mathlib

/-!
Verification development for the study-material generator core
(`src/core/text_processor.py`, `summary_generator.py`, `flashcard_generator.py`,
`concept_mapper.py`, `learning_path.py`).

The Python code is shallowly embedded:
* Python strings are Lean `String`s, processed through explicit `List Char`
  helpers (the helpers reproduce the exact semantics of the Python string
  methods and of the concrete regular expressions used by the source, which
  are hand-compiled pattern by pattern).
* Python floats are modelled as exact fractions (`PyFloat`, a numerator /
  denominator pair; every construction keeps the denominator positive).  The
  source only ever uses float values in comparisons, `int()` truncations and
  stored ratios, never in precision-sensitive ways.
* External collaborators are parameters: NLTKword/sentence tokenisation
  (`sent_tokenize`, `word_tokenize`+`pos_tag`) and the NLTK English stopword
  list enter as arguments, since they are library data, not repository code.
  `random.choice` in the flashcard generator is a parameter `pick` giving the
  chosen template for each candidate topic index.
* Python dicts that are only ever iterated in insertion order or read back
  with `get` are embedded by their observable behaviour (first-occurrence
  deduplication, or a filter over the original list), as documented at each
  definition.
-/

namespace StudyGen

/-! ## Python-style character and string helpers -/

/-- Python regex `\s` / `str.strip` whitespace (ASCII part): space, tab,
newline, carriage return, vertical tab, form feed. -/
def pyIsSpace (c : Char) : Bool :=
  c.isWhitespace || c = '\x0b' || c = '\x0c'

/-- Regex `\w` (word character): letters, digits, underscore. -/
def wordChar (c : Char) : Bool :=
  c.isAlphanum || c = '_'

/-- Split a character list at every separator character, keeping empty
pieces, like Python `str.split(sep)` with a one-character separator. -/
def chSplit (p : Char → Bool) (cs : List Char) : List (List Char) :=
  match cs with
  | [] => [[]]
  | c :: rest =>
    let r := chSplit p rest
    if p c then [] :: r
    else
      match r with
      | [] => [[c]]
      | g :: gs => (c :: g) :: gs

/-- Python `text.split()` (no argument): split on whitespace runs and drop
empty pieces. -/
def pySplitWs (s : String) : List String :=
  ((chSplit pyIsSpace s.toList).map String.mk).filter (fun t => t ≠ "")

/-- Python `text.split('.')`: split on `'.'`, keeping empty pieces. -/
def splitOnDot (s : String) : List String :=
  (chSplit (· = '.') s.toList).map String.mk

/-- Helper for `strContains`: scan every suffix for a prefix match. -/
def strContainsAux (needle : List Char) : Nat → List Char → Bool
  | 0, _ => false
  | _, [] => List.isPrefixOf needle []
  | f + 1, c :: rest =>
    List.isPrefixOf needle (c :: rest) || strContainsAux needle f rest

/-- Python `needle in hay` substring test (`"" in s` is `True`). -/
def strContains (hay needle : String) : Bool :=
  strContainsAux needle.toList (hay.toList.length + 1) hay.toList

/-- Python `str.strip()` on a character list. -/
def trimChars (cs : List Char) : List Char :=
  ((cs.dropWhile pyIsSpace).reverse.dropWhile pyIsSpace).reverse

/-- Python `str.strip()`. -/
def pyStrip (s : String) : String :=
  String.mk (trimChars s.toList)

/-- Python `str.lower()` (ASCII). -/
def lowerStr (s : String) : String :=
  String.mk (s.toList.map Char.toLower)

/-- Helper for `pyCount`: count non-overlapping occurrences, moving past a
whole match after each hit, like Python `str.count`.  `fuel` bounds the
recursion by the text length. -/
def pyCountAux (needle : List Char) : Nat → List Char → Nat
  | 0, _ => 0
  | _, [] => 0
  | f + 1, c :: rest =>
    if List.isPrefixOf needle (c :: rest) then
      1 + pyCountAux needle f ((c :: rest).drop needle.length)
    else
      pyCountAux needle f rest

/-- Python `hay.count(needle)` (non-overlapping; empty needle counts
`len + 1`). -/
def pyCount (hay needle : String) : Nat :=
  if needle.toList = [] then hay.toList.length + 1
  else pyCountAux needle.toList hay.toList.length hay.toList

/-- Helper for `pyFind`: first match position or `-1`. -/
def pyFindAux (needle : List Char) : Nat → Nat → List Char → Int
  | 0, _, _ => -1
  | _, i, [] => if needle = [] then (i : Int) else -1
  | f + 1, i, c :: rest =>
    if List.isPrefixOf needle (c :: rest) then (i : Int)
    else pyFindAux needle f (i + 1) rest

/-- Python `hay.find(needle)`: character index of the first occurrence, or
`-1`. -/
def pyFind (hay needle : String) : Int :=
  if needle.toList = [] then 0
  else pyFindAux needle.toList (hay.toList.length + 1) 0 hay.toList

/-- Helper for `pyTitle`; the flag records whether the previous character was
a letter. -/
def pyTitleAux : Bool → List Char → List Char
  | _, [] => []
  | prev, c :: rest =>
    if c.isAlpha then
      (if prev then c.toLower else c.toUpper) :: pyTitleAux true rest
    else
      c :: pyTitleAux false rest

/-- Python `str.title()` (ASCII): first letter of every letter-run uppercased,
the rest lowercased. -/
def pyTitle (s : String) : String :=
  String.mk (pyTitleAux false s.toList)

/-- Helper for `normalizeWs`, fuelled by the list length. -/
def normWsAux : Nat → List Char → List Char
  | 0, cs => cs
  | _, [] => []
  | f + 1, c :: rest =>
    if pyIsSpace c then ' ' :: normWsAux f (rest.dropWhile pyIsSpace)
    else c :: normWsAux f rest

/-- Python `re.sub(r'\s+', ' ', s)`: collapse every whitespace run to one
space. -/
def normalizeWs (s : String) : String :=
  String.mk (normWsAux s.toList.length s.toList)

/-- Helper for `strReplace`, fuelled by the list length. -/
def strReplaceAux (pat rep : List Char) : Nat → List Char → List Char
  | 0, cs => cs
  | _, [] => []
  | f + 1, c :: rest =>
    if pat ≠ [] && List.isPrefixOf pat (c :: rest) then
      rep ++ strReplaceAux pat rep f ((c :: rest).drop pat.length)
    else
      c :: strReplaceAux pat rep f rest

/-- Python `s.replace(pat, rep)` for a non-empty pattern (used to embed
`template.format(topic)`, whose templates contain one `"{}"` slot). -/
def strReplace (s pat rep : String) : String :=
  String.mk (strReplaceAux pat.toList rep.toList s.toList.length s.toList)

/-- `sep.join(parts)`. -/
def joinSep (sep : String) (parts : List String) : String :=
  String.mk (List.intercalate sep.toList (parts.map String.toList))

/-- Python `s[0].isupper()` on a non-empty string (`false` on `""`; the
source only applies it to non-empty strings). -/
def startsWithUpper (s : String) : Bool :=
  match s.toList with
  | [] => false
  | c :: _ => c.isUpper

/-- Python `str.isdigit` (ASCII): non-empty and all digits. -/
def pyIsDigitStr (s : String) : Bool :=
  s.toList ≠ [] && s.toList.all Char.isDigit

/-- Python slice `l[a:b]` for natural bounds. -/
def pySlice (l : List α) (a b : Nat) : List α :=
  (l.take b).drop a

/-- First-occurrence deduplication helper (`seen` is the set of already
emitted elements). -/
def dedupFirstAux [BEq α] (seen : List α) : List α → List α
  | [] => []
  | x :: xs =>
    if seen.contains x then dedupFirstAux seen xs
    else x :: dedupFirstAux (x :: seen) xs

/-- Keep the first occurrence of every element, in order: the key order of a
Python dict or `Counter` built by iterating the list. -/
def dedupFirst [BEq α] (l : List α) : List α :=
  dedupFirstAux [] l

/-- Helper for `findWordTokens`.  A match of `\b[A-Za-z]{k,}\b` is a maximal
run of letters of length at least `k` whose neighbouring characters (if any)
are not word characters: positions inside a letter run fail the leading
`\b`, and a shorter greedy retry would end between two letters, failing the
trailing `\b`, so the scan can jump from run to run.  `prev` is the
character before the current position; `fuel` bounds the recursion. -/
def fwtAux (k : Nat) : Nat → Option Char → List Char → List String
  | 0, _, _ => []
  | _, _, [] => []
  | f + 1, prev, c :: rest =>
    let boundaryBefore :=
      match prev with
      | none => true
      | some p => ¬ wordChar p
    if c.isAlpha && boundaryBefore then
      let run := c :: rest.takeWhile Char.isAlpha
      let after := rest.dropWhile Char.isAlpha
      let boundaryAfter :=
        match after with
        | [] => true
        | d :: _ => ¬ wordChar d
      let emit := boundaryAfter && k ≤ run.length
      (if emit then [String.mk run] else []) ++
        fwtAux k f (some (run.getLast (by simp [run]))) after
    else
      fwtAux k f (some c) rest

/-- Python `re.findall(r'\b[A-Za-z]{k,}\b', s)` (also used for the
`{3,}`/`{4,}` and lowercase variants in the source). -/
def findWordTokens (k : Nat) (s : String) : List String :=
  fwtAux k (s.toList.length + 1) none s.toList

/-! ## Python floats as exact fractions

The source uses floats only for sentence scores, ratio arithmetic, and the
`0.5` / `0.6` threshold comparisons.  They are embedded as exact fractions;
every constructor used below keeps the denominator positive. -/

/-- An exact fraction standing for a Python float value. -/
structure PyFloat where
  num : Int
  den : Nat
deriving DecidableEq, Repr

def pfOfNat (n : Nat) : PyFloat := ⟨(n : Int), 1⟩

def pfAdd (a b : PyFloat) : PyFloat :=
  ⟨a.num * (b.den : Int) + b.num * (a.den : Int), a.den * b.den⟩

def pfMul (a b : PyFloat) : PyFloat :=
  ⟨a.num * b.num, a.den * b.den⟩

/-- Division of a float by a positive natural number. -/
def pfDivNat (a : PyFloat) (m : Nat) : PyFloat :=
  ⟨a.num, a.den * m⟩

def pfLe (a b : PyFloat) : Bool :=
  a.num * (b.den : Int) ≤ b.num * (a.den : Int)

def pfLt (a b : PyFloat) : Bool :=
  a.num * (b.den : Int) < b.num * (a.den : Int)

/-- Python `int(x)`: truncation toward zero. -/
def pfTruncToInt (a : PyFloat) : Int :=
  Int.tdiv a.num (a.den : Int)

/-- Python `round(x)` (banker's rounding, half to even). -/
def pyRound (a : PyFloat) : Int :=
  let fl := Int.fdiv a.num (a.den : Int)
  let rem2 := 2 * (a.num - fl * (a.den : Int))
  if rem2 < (a.den : Int) then fl
  else if (a.den : Int) < rem2 then fl + 1
  else if fl % 2 = 0 then fl else fl + 1

/-! ## A stable insertion sort

Python's `sorted`/`list.sort` are stable.  A stable sort for a fixed total
preorder is unique, so this insertion sort (which keeps earlier elements
before later tied ones) computes exactly what `sorted` computes. -/

/-- Insert `x` into `l` after every element `y` with `le y x` (so ties keep
their original order). -/
def insertSorted (le : α → α → Bool) (x : α) : List α → List α
  | [] => [x]
  | y :: ys => if le y x then y :: insertSorted le x ys else x :: y :: ys

/-- Stable sort with respect to the boolean preorder `le`. -/
def stableSort (le : α → α → Bool) (l : List α) : List α :=
  l.foldl (fun acc x => insertSorted le x acc) []

theorem length_insertSorted (le : α → α → Bool) (x : α) (l : List α) :
    (insertSorted le x l).length = l.length + 1 := by
  induction l with
  | nil => rfl
  | cons y ys ih =>
    simp only [insertSorted]
    split
    · simp [ih]
    · simp

theorem length_foldl_insertSorted (le : α → α → Bool) (l acc : List α) :
    (l.foldl (fun acc x => insertSorted le x acc) acc).length
      = acc.length + l.length := by
  induction l generalizing acc with
  | nil => simp
  | cons x xs ih =>
    simp only [List.foldl_cons, List.length_cons]
    rw [ih, length_insertSorted]
    omega

theorem length_stableSort (le : α → α → Bool) (l : List α) :
    (stableSort le l).length = l.length := by
  simpa [stableSort] using length_foldl_insertSorted le l []

theorem mem_insertSorted (le : α → α → Bool) (x a : α) (l : List α) :
    a ∈ insertSorted le x l ↔ a = x ∨ a ∈ l := by
  induction l with
  | nil => simp [insertSorted]
  | cons y ys ih =>
    simp only [insertSorted]
    split
    · simp only [List.mem_cons, ih]
      constructor
      · rintro (rfl | h)
        · tauto
        · tauto
      · rintro (rfl | rfl | h)
        · tauto
        · tauto
        · tauto
    · simp only [List.mem_cons]

theorem pairwise_insertSorted (le : α → α → Bool)
    (htrans : ∀ a b c, le a b = true → le b c = true → le a c = true)
    (htot : ∀ a b, le a b = true ∨ le b a = true)
    (x : α) (l : List α) (h : l.Pairwise (fun a b => le a b = true)) :
    (insertSorted le x l).Pairwise (fun a b => le a b = true) := by
  induction l with
  | nil => simp [insertSorted]
  | cons y ys ih =>
    rcases List.pairwise_cons.mp h with ⟨hy, hys⟩
    simp only [insertSorted]
    split
    · rename_i hle
      refine List.pairwise_cons.mpr ⟨?_, ih hys⟩
      intro b hb
      rcases (mem_insertSorted le x b ys).mp hb with rfl | hb
      · exact hle
      · exact hy b hb
    · rename_i hle
      have hxy : le x y = true := by
        rcases htot x y with h1 | h1
        · exact h1
        · exact absurd h1 hle
      refine List.pairwise_cons.mpr ⟨?_, h⟩
      intro b hb
      rcases List.mem_cons.mp hb with rfl | hb
      · exact hxy
      · exact htrans x y b hxy (hy b hb)

theorem pairwise_stableSort (le : α → α → Bool)
    (htrans : ∀ a b c, le a b = true → le b c = true → le a c = true)
    (htot : ∀ a b, le a b = true ∨ le b a = true)
    (l : List α) :
    (stableSort le l).Pairwise (fun a b => le a b = true) := by
  have key : ∀ (l acc : List α),
      acc.Pairwise (fun a b => le a b = true) →
      (l.foldl (fun acc x => insertSorted le x acc) acc).Pairwise
        (fun a b => le a b = true) := by
    intro l
    induction l with
    | nil => intro acc h; simpa using h
    | cons x xs ih =>
      intro acc h
      exact ih _ (pairwise_insertSorted le htrans htot x acc h)
  exact key l [] (by simp)

theorem mem_stableSort (le : α → α → Bool) (l : List α) (a : α) :
    a ∈ stableSort le l ↔ a ∈ l := by
  have key : ∀ (l acc : List α),
      (a ∈ l.foldl (fun acc x => insertSorted le x acc) acc ↔ a ∈ l ∨ a ∈ acc) := by
    intro l
    induction l with
    | nil => intro acc; simp
    | cons x xs ih =>
      intro acc
      simp only [List.foldl_cons, ih, mem_insertSorted, List.mem_cons]
      tauto
  simpa [stableSort] using key l []

/-! ## SummaryGenerator (`src/core/summary_generator.py`)

`SummaryGenerator.generate(text, ratio)` first calls the external NLTK
`sent_tokenize(text)`; the embedding takes that sentence list as an input
`sentences`.  The final dict construction divides by `len(text.split())`,
which raises `ZeroDivisionError` when the text has no words; the embedding
returns `Except SGError Summary` and `SGError` also carries the
`EmptyInputError` constructor named by the specification (which the code
never raises), so the spec's claim can be stated. -/

/-- Errors `generate` can be claimed to raise. -/
inductive SGError where
  | zeroDivisionError : SGError
  | emptyInputError : SGError
deriving DecidableEq, Repr

/-- The dict returned by `SummaryGenerator.generate`. -/
structure Summary where
  summary : String
  key_points : List String
  original_length : Nat
  summary_length : Nat
  compression_ratio : PyFloat
deriving DecidableEq, Repr

/-- `_score_sentences`: global word frequencies over `\b[a-zA-Z]{3,}\b`
tokens of the lowercased text; each sentence scores the sum of its tokens'
frequencies divided by (token count + 1).

The Python loop fills a dict keyed by sentence text; duplicate sentences
re-assign the same score (it depends only on the sentence text and the
global table), so the dict equals the first-occurrence deduplication of the
sentence list, in insertion order, mapped to its score. -/
def scoreSentences (sentences : List String) (fullText : String) :
    List (String × PyFloat) :=
  let words := findWordTokens 3 (lowerStr fullText)
  (dedupFirst sentences).map (fun sentence =>
    let sentenceWords := findWordTokens 3 (lowerStr sentence)
    let total := (sentenceWords.map (fun w => words.count w)).sum
    (sentence, pfDivNat (pfOfNat total) (sentenceWords.length + 1)))

/-- The number of sentences `generate` selects:
`max(3, int(len(sentences) * ratio))`. -/
def numSelected (sentences : List String) (ratio : PyFloat) : Nat :=
  max 3 (pfTruncToInt (pfMul (pfOfNat sentences.length) ratio)).toNat

/-- `generate` lines 27-32: take the `numSelected` highest-scoring sentences
(stable descending sort on the score, as Python `sorted(..., reverse=True)`),
then re-sort the selection by original position
(`sorted(top, key=lambda x: sentences.index(x[0]))`). -/
def summarySentences (sentences : List String) (text : String)
    (ratio : PyFloat) : List String :=
  let scores := scoreSentences sentences text
  let top := (stableSort (fun a b => pfLe b.2 a.2) scores).take
    (numSelected sentences ratio)
  (stableSort (fun a b => sentences.indexOf a.1 ≤ sentences.indexOf b.1)
    top).map (·.1)

/-- `_extract_key_points`: scan the first 30 sentences for importance
keywords, stop at 5; fall back to the first 5 sentences when fewer than 3
were found. -/
def extractKeyPoints (_text : String) (sentences : List String) :
    List String :=
  let importantKeywords := ["important", "key", "main", "primary",
    "essential", "critical", "significant", "fundamental", "core", "major"]
  let keyPoints := (sentences.take 30).foldl
    (fun acc sentence =>
      if acc.length ≥ 5 then acc
      else if importantKeywords.any
          (fun kw => strContains (lowerStr sentence) kw) then
        acc ++ [pyStrip sentence]
      else acc) []
  let keyPoints := if keyPoints.length < 3 then sentences.take 5 else keyPoints
  keyPoints.take 5

/-- `SummaryGenerator.generate`.  `sentences` is the external
`sent_tokenize(text)` output.  The final dict divides
`len(summary.split())` by `len(text.split())`, which in Python raises
`ZeroDivisionError` when the text has no whitespace-separated words. -/
def sgGenerate (sentences : List String) (text : String) (ratio : PyFloat) :
    Except SGError Summary :=
  let summaryText := joinSep " " (summarySentences sentences text ratio)
  let keyPoints := extractKeyPoints text sentences
  let origLen := (pySplitWs text).length
  if origLen = 0 then .error .zeroDivisionError
  else
    .ok { summary := summaryText
          key_points := keyPoints
          original_length := origLen
          summary_length := (pySplitWs summaryText).length
          compression_ratio := ⟨((pySplitWs summaryText).length : Int), origLen⟩ }

/-! ## ConceptMapper (`src/core/concept_mapper.py`) -/

/-- A node of the concept graph. -/
structure GNode where
  id : String
  label : String
  level : Nat
  type : String
  color : String
deriving DecidableEq, Repr

/-- An edge of the concept graph. -/
structure GEdge where
  source : String
  target : String
  weight : Nat
  type : String
deriving DecidableEq, Repr

/-- The `metadata` dict of a concept graph. -/
structure GraphMeta where
  total_nodes : Nat
  total_edges : Nat
deriving DecidableEq, Repr

/-- The graph dict returned by `create_concept_graph`. -/
structure ConceptGraph where
  nodes : List GNode
  edges : List GEdge
  metadata : GraphMeta
deriving DecidableEq, Repr

/-- Node identifier `f"node_{i}"`. -/
def nodeId (i : Nat) : String :=
  "node_" ++ toString i

/-- `_create_nodes`: first 5 topics are `main` (green), topics 5..14 are
`sub` (blue); labels truncated to 30 characters. -/
def createNodes (topics : List String) : List GNode :=
  let mainNodes := (topics.take 5).mapIdx (fun i topic =>
    { id := nodeId i, label := String.mk (topic.toList.take 30),
      level := 0, type := "main", color := "#4CAF50" })
  let subNodes := ((topics.drop 5).take 10).mapIdx (fun i topic =>
    { id := nodeId (i + 5), label := String.mk (topic.toList.take 30),
      level := 1, type := "sub", color := "#2196F3" })
  mainNodes ++ subNodes

/-- Helper for `reSplitPunct`: cut at maximal runs of `.!?`, fuelled by the
text length. -/
def rspAux (fuel : Nat) (cs : List Char) : List (List Char) :=
  let isPunct : Char → Bool := fun c => c = '.' || c = '!' || c = '?'
  match fuel with
  | 0 => [cs]
  | f + 1 =>
    let piece := cs.takeWhile (fun c => ¬ isPunct c)
    let rest := cs.dropWhile (fun c => ¬ isPunct c)
    match rest with
    | [] => [piece]
    | _ => piece :: rspAux f (rest.dropWhile isPunct)

/-- Python `re.split(r'[.!?]+', text)`: split at maximal runs of sentence
punctuation (runs collapse; a leading/trailing run yields an empty piece). -/
def reSplitPunct (s : String) : List String :=
  (rspAux (s.toList.length + 1) s.toList).map String.mk

/-- `_create_edges`: co-occurrence edges over the first 10 topics (pairs
`i < j`, weight `min(count, 5)`), using sentences with more than 10
characters after stripping; when no edge is found and there are at least 2
topics, a fallback chain `node_i -> node_{i+1}` for
`i < min(3, len(topics) - 1)`. -/
def createEdges (topics : List String) (text : String) : List GEdge :=
  let sentences := ((reSplitPunct text).map pyStrip).filter
    (fun s => 10 < s.length)
  let ts := topics.take 10
  let edges := ts.enum.flatMap (fun p1 =>
    ts.enum.filterMap (fun p2 =>
      if p1.1 < p2.1 then
        let t1 := lowerStr p1.2
        let t2 := lowerStr p2.2
        let co := sentences.countP (fun sentence =>
          strContains (lowerStr sentence) t1 &&
          strContains (lowerStr sentence) t2)
        if 0 < co then
          some { source := nodeId p1.1, target := nodeId p2.1,
                 weight := min co 5, type := "related" }
        else none
      else none))
  if edges.length = 0 && 2 ≤ topics.length then
    (List.range (min 3 (topics.length - 1))).map (fun i =>
      { source := nodeId i, target := nodeId (i + 1),
        weight := 1, type := "related" })
  else edges

/-- `create_concept_graph(topics, text)`: an empty graph when `topics` is
empty, otherwise nodes plus edges with count metadata. -/
def createConceptGraph (topics : List String) (text : String) : ConceptGraph :=
  if topics.isEmpty then
    { nodes := [], edges := [], metadata := { total_nodes := 0, total_edges := 0 } }
  else
    let nodes := createNodes topics
    let edges := createEdges topics text
    { nodes := nodes, edges := edges,
      metadata := { total_nodes := nodes.length, total_edges := edges.length } }

/-! ## FlashcardGenerator (`src/core/flashcard_generator.py`)

`generate(text, topics, num_cards)` tokenises `text` with the external NLTK
`sent_tokenize`; the embedding takes the resulting `sentences` list (the
sub-generators use only the sentence list and the topics).  The pseudo-random
template choice of `_generate_concept_questions` is the parameter `pick`,
giving the `(template, card_type)` drawn for the topic at each index of
`topics[:15]`. -/

/-- A flashcard before `id`/`difficulty` assignment. -/
structure RawCard where
  question : String
  answer : String
  topic : String
  type : String
deriving DecidableEq, Repr

/-- A finished flashcard. -/
structure Card where
  question : String
  answer : String
  topic : String
  type : String
  id : Nat
  difficulty : String
deriving DecidableEq, Repr

/-- `_extract_definition_cards`: sentences containing a definition indicator;
the first of the first 10 topics mentioned in a sentence of more than 5 words
is taken (the loop breaks there), and the card is kept only when the answer
has at least 8 words.  At most 8 cards. -/
def extractDefinitionCards (sentences topics : List String) : List RawCard :=
  let definitionIndicators := ["is", "are", "refers to", "defined as",
    "means", "represents", "consists of", "includes", "involves",
    "characterized by"]
  (sentences.filterMap (fun sentence =>
    let sentenceLower := lowerStr sentence
    if definitionIndicators.any (fun ind => strContains sentenceLower ind) then
      match (topics.take 10).find? (fun topic =>
          strContains sentenceLower (lowerStr topic) &&
          5 < (pySplitWs sentence).length) with
      | some topic =>
        let answer := pyStrip sentence
        if 8 ≤ (pySplitWs answer).length then
          some { question := "What is " ++ topic ++ "?", answer := answer,
                 topic := topic, type := "definition" }
        else none
      | none => none
    else none)).take 8

/-- The fixed template list of `_generate_concept_questions`. -/
def conceptTemplates : List (String × String) :=
  [("What is {}?", "definition"),
   ("Explain the concept of {}.", "explanation"),
   ("Define {}.", "definition"),
   ("What are the key features of {}?", "features"),
   ("How does {} work?", "mechanism"),
   ("What is the purpose of {}?", "purpose"),
   ("Why is {} important?", "importance")]

/-- `_generate_concept_questions`: for each of the first 15 topics with at
least one related sentence (more than 6 words, mentioning the topic), build
one card from a chosen template; the answer joins up to 2 related sentences
and is truncated to its first 2 dot-separated clauses when longer than 50
words.  At most 10 cards. -/
def generateConceptQuestions (sentences topics : List String)
    (pick : Nat → String × String) : List RawCard :=
  (((topics.take 15).mapIdx (fun i topic =>
    let related := (sentences.filter (fun sentence =>
      strContains (lowerStr sentence) (lowerStr topic) &&
      6 < (pySplitWs sentence).length)).map pyStrip
    if related.isEmpty then none
    else
      let tc := pick i
      let question := strReplace tc.1 "{}" topic
      let answer := joinSep ". " (related.take 2)
      let answer :=
        if 50 < (pySplitWs answer).length then
          joinSep ". " ((splitOnDot answer).take 2) ++ "."
        else answer
      some { question := question, answer := answer, topic := topic,
             type := tc.2 })).filterMap id).take 10

/-- `_generate_comparison_questions`: sentences with a comparison keyword
mentioning at least 2 topics; the card's `topic` is the string
`"<t1> vs <t2>"` over the first two mentioned topics.  At most 3 cards. -/
def generateComparisonQuestions (sentences topics : List String) :
    List RawCard :=
  let comparisonWords := ["difference", "compare", "versus", "vs", "unlike",
    "similar", "contrast"]
  (sentences.filterMap (fun sentence =>
    let sentenceLower := lowerStr sentence
    if comparisonWords.any (fun w => strContains sentenceLower w) then
      match topics.filter (fun topic =>
          strContains sentenceLower (lowerStr topic)) with
      | t1 :: t2 :: _ =>
        some { question := "What is the difference between " ++ t1 ++
                 " and " ++ t2 ++ "?",
               answer := pyStrip sentence,
               topic := t1 ++ " vs " ++ t2, type := "comparison" }
      | _ => none
    else none)).take 3

/-- `_generate_feature_questions`: sentences with a feature keyword; first of
the first 10 topics mentioned in a sentence of more than 8 words (the loop
breaks there).  At most 5 cards. -/
def generateFeatureQuestions (sentences topics : List String) :
    List RawCard :=
  let featureWords := ["characteristics", "features", "properties",
    "advantages", "benefits", "types"]
  (sentences.filterMap (fun sentence =>
    let sentenceLower := lowerStr sentence
    if featureWords.any (fun w => strContains sentenceLower w) then
      match (topics.take 10).find? (fun topic =>
          strContains sentenceLower (lowerStr topic) &&
          8 < (pySplitWs sentence).length) with
      | some topic =>
        some { question := "What are the key characteristics of " ++ topic ++
                 "?",
               answer := pyStrip sentence, topic := topic, type := "features" }
      | none => none
    else none)).take 5

/-- `_generate_process_questions`: sentences with a process keyword; first of
the first 8 topics mentioned in a sentence of more than 6 words (the loop
breaks there).  At most 4 cards. -/
def generateProcessQuestions (sentences topics : List String) :
    List RawCard :=
  let processWords := ["process", "steps", "procedure", "method", "approach",
    "technique"]
  (sentences.filterMap (fun sentence =>
    let sentenceLower := lowerStr sentence
    if processWords.any (fun w => strContains sentenceLower w) then
      match (topics.take 8).find? (fun topic =>
          strContains sentenceLower (lowerStr topic) &&
          6 < (pySplitWs sentence).length) with
      | some topic =>
        some { question := "How does " ++ topic ++ " work?",
               answer := pyStrip sentence, topic := topic, type := "process" }
      | none => none
    else none)).take 4

/-- `_remove_duplicates`: keep the first card for each normalized question
(`question.lower().strip()`). -/
def removeDuplicatesAux (seen : List String) : List RawCard → List RawCard
  | [] => []
  | card :: cards =>
    let qNorm := pyStrip (lowerStr card.question)
    if seen.contains qNorm then removeDuplicatesAux seen cards
    else card :: removeDuplicatesAux (qNorm :: seen) cards

/-- `_remove_duplicates`. -/
def removeDuplicates (cards : List RawCard) : List RawCard :=
  removeDuplicatesAux [] cards

/-- `_assign_difficulty`: `easy` below 15 answer words without a complex
term, `medium` below 30 without a complex term, else `hard`. -/
def assignDifficulty (card : RawCard) : String :=
  let complexTerms := ["implementation", "architecture", "methodology",
    "paradigm", "algorithm"]
  let answerLength := (pySplitWs card.answer).length
  let hasComplexTerms := complexTerms.any
    (fun term => strContains (lowerStr card.answer) term)
  if answerLength < 15 && ¬ hasComplexTerms then "easy"
  else if answerLength < 30 && ¬ hasComplexTerms then "medium"
  else "hard"

/-- `FlashcardGenerator.generate`: concatenate the five generators'
candidates, deduplicate, truncate to `numCards`, then assign `id = i + 1`
and the difficulty. -/
def fgGenerate (sentences topics : List String) (pick : Nat → String × String)
    (numCards : Nat) : List Card :=
  let flashcards :=
    extractDefinitionCards sentences topics ++
    generateConceptQuestions sentences topics pick ++
    generateComparisonQuestions sentences topics ++
    generateFeatureQuestions sentences topics ++
    generateProcessQuestions sentences topics
  let flashcards := removeDuplicates flashcards
  let flashcards := flashcards.take numCards
  flashcards.mapIdx (fun i card =>
    { question := card.question, answer := card.answer, topic := card.topic,
      type := card.type, id := i + 1, difficulty := assignDifficulty card })

/-! ## LearningPathGenerator (`src/core/learning_path.py`)

Input flashcards are Python dicts read with `card.get('topic', 'General')`
and `card.get('difficulty', 'medium')`; they are embedded as records with
optional fields so a missing key is representable.  `_group_by_topic` builds
a dict from topic to the cards carrying it (in input order); the generator
only reads it back via `topic_cards.get(topic, [])`, which equals filtering
the input list by that topic. -/

/-- A flashcard as consumed by the learning-path generator (`none` models a
missing dict key). -/
structure LPCard where
  topic : Option String
  difficulty : Option String
deriving DecidableEq, Repr

/-- A learning step. -/
structure Step where
  step_number : Nat
  topic : String
  description : String
  num_flashcards : Nat
  difficulty : String
  status : String
  estimated_time : Nat
  prerequisites : List String
deriving DecidableEq, Repr

/-- The dict returned by `LearningPathGenerator.generate`. -/
structure LearningPath where
  total_steps : Nat
  total_time : Nat
  steps : List Step
  difficulty_progression : List (Nat × String)
deriving DecidableEq, Repr

/-- `topic_cards.get(topic, [])` after `_group_by_topic`. -/
def topicBucket (flashcards : List LPCard) (topic : String) : List LPCard :=
  flashcards.filter (fun card => card.topic.getD "General" = topic)

/-- `self.difficulty_weights.get(difficulty, 1)`. -/
def difficultyWeight (difficulty : String) : Nat :=
  if difficulty = "easy" then 1
  else if difficulty = "medium" then 2
  else if difficulty = "hard" then 3
  else 1

/-- `_determine_step_difficulty`: `medium` for an empty bucket; `hard` when
more than 50% of the cards are hard, `easy` when more than 50% are easy,
else `medium` (the `0.5` float threshold is exact). -/
def determineStepDifficulty (cards : List LPCard) : String :=
  if cards.isEmpty then "medium"
  else
    let difficulties := cards.map (fun card => card.difficulty.getD "medium")
    let easyCount := difficulties.count "easy"
    let hardCount := difficulties.count "hard"
    if pfLt (pfMul (pfOfNat cards.length) ⟨1, 2⟩) (pfOfNat hardCount) then
      "hard"
    else if pfLt (pfMul (pfOfNat cards.length) ⟨1, 2⟩) (pfOfNat easyCount) then
      "easy"
    else "medium"

/-- `_estimate_time`: `int((15 + num_flashcards * 2) * multiplier)` (integer
arithmetic, the `int()` is the identity). -/
def estimateTime (numFlashcards : Nat) (difficulty : String) : Nat :=
  (15 + numFlashcards * 2) * difficultyWeight difficulty

/-- `_create_learning_steps`: one step per topic over `topics[:10]`;
`estimated_time`/`prerequisites` are filled by `generate` afterwards (0 and
`[]` here). -/
def createLearningSteps (topics : List String) (flashcards : List LPCard) :
    List Step :=
  (topics.take 10).mapIdx (fun i topic =>
    let bucket := topicBucket flashcards topic
    { step_number := i + 1
      topic := topic
      description := "Learn about " ++ topic
      num_flashcards := bucket.length
      difficulty := determineStepDifficulty bucket
      status := if 0 < i then "locked" else "available"
      estimated_time := 0
      prerequisites := [] })

/-- The in-place update `step['estimated_time'] = self._estimate_time(step)`
of the first loop of `generate`. -/
def withEstimatedTime (step : Step) : Step :=
  { step with
    estimated_time := estimateTime step.num_flashcards step.difficulty }

/-- The in-place update `step['prerequisites'] = [...]` of the second loop
of `generate`. -/
def withPrerequisites (prereqs : List String) (step : Step) : Step :=
  { step with prerequisites := prereqs }

/-- `LearningPathGenerator.generate`. -/
def lpGenerate (topics : List String) (flashcards : List LPCard) :
    LearningPath :=
  let steps0 := createLearningSteps topics flashcards
  let steps1 := steps0.map withEstimatedTime
  let steps := steps1.mapIdx (fun i step =>
    withPrerequisites ((steps1.take i).map (·.topic)) step)
  { total_steps := steps.length
    total_time := (steps.map (·.estimated_time)).sum
    steps := steps
    difficulty_progression := steps.map (fun step =>
      (step.step_number, step.difficulty)) }

/-! ## TextProcessor (`src/core/text_processor.py`)

`TextProcessor.__init__` builds its stopword set from the external NLTK
English stopword list plus literal additions; the NLTK base list is the
parameter `nltkBase`.  `_extract_capitalized_nouns` calls the external NLTK
`word_tokenize`/`pos_tag`; their composition per sentence is the parameter
`tagger`.  The concrete regular expressions of the source are hand-compiled
to matchers below, reproducing leftmost scanning, greedy quantifiers with
backtracking, and ordered alternation. -/

/-- Greedy capture of `cls{lo,hi}` followed by a tail matched by `tailOk`:
the largest `k ≤ min hi (run length)` with `lo ≤ k` whose remainder passes
`tailOk` (regex backtracking order). -/
def greedyCapture (cs : List Char) (lo hi : Nat) (cls : Char → Bool)
    (tailOk : List Char → Bool) : Option Nat :=
  let m := min hi (cs.takeWhile cls).length
  ((List.range (m + 1)).reverse).find? (fun k => lo ≤ k && tailOk (cs.drop k))

/-- The character class `[A-Za-z\s]`. -/
def alphaSpace (c : Char) : Bool :=
  c.isAlpha || pyIsSpace c

/-- `[-=]`. -/
def isDashEq (c : Char) : Bool :=
  c = '-' || c = '='

/-- `re.findall(r'^([A-Z][A-Za-z\s]{3,40}):?\s*$', line)` (at most one match
since `^` only matches at the start). -/
def matchHeaderCapital (line : String) : Option String :=
  match line.toList with
  | [] => none
  | c :: rest =>
    if c.isUpper then
      let tailOk := fun (t : List Char) =>
        match t with
        | ':' :: t2 => t2.all pyIsSpace
        | t2 => t2.all pyIsSpace
      match greedyCapture rest 3 40 alphaSpace tailOk with
      | some k => some (String.mk (c :: rest.take k))
      | none => none
    else none

/-- `re.findall(r'^\d+\.?\s+([A-Z][A-Za-z\s]{3,40})', line)`. -/
def matchHeaderNumbered (line : String) : Option String :=
  let cs := line.toList
  let ds := cs.takeWhile Char.isDigit
  if ds.isEmpty then none
  else
    let t := cs.drop ds.length
    let t := match t with
      | '.' :: t2 => t2
      | t2 => t2
    let ws := t.takeWhile pyIsSpace
    if ws.isEmpty then none
    else
      match t.drop ws.length with
      | [] => none
      | u :: t2 =>
        if u.isUpper then
          let k := min 40 (t2.takeWhile alphaSpace).length
          if 3 ≤ k then some (String.mk (u :: t2.take k)) else none
        else none

/-- `re.findall(r'^([A-Z\s]{4,30})$', line)`. -/
def matchHeaderAllCaps (line : String) : Option String :=
  let cs := line.toList
  if 4 ≤ cs.length && cs.length ≤ 30 &&
      cs.all (fun c => c.isUpper || pyIsSpace c) then
    some line
  else none

/-- `re.findall(r'^\s*[-=]{3,}\s*([A-Za-z\s]{3,40})\s*[-=]{3,}', line)`.
The group class excludes `-`/`=`, so the leading `\s*` and `[-=]{3,}` commit
to their maximal runs; the inner `\s*` backtracks against the group (the
group class includes whitespace). -/
def matchHeaderDecorated (line : String) : Option String :=
  let cs := line.toList
  let t := cs.dropWhile pyIsSpace
  let dashes := t.takeWhile isDashEq
  if dashes.length < 3 then none
  else
    let t2 := t.drop dashes.length
    let maxWs := (t2.takeWhile pyIsSpace).length
    let tailOk := fun (t3 : List Char) =>
      3 ≤ ((t3.dropWhile pyIsSpace).takeWhile isDashEq).length
    ((List.range (maxWs + 1)).reverse).findSome? (fun w =>
      match greedyCapture (t2.drop w) 3 40 alphaSpace tailOk with
      | some k => some (String.mk ((t2.drop w).take k))
      | none => none)

/-- Generic `re.findall` scanner: try a match at every position, emit the
capture and continue after the whole match (non-overlapping, leftmost). -/
def scanAux (matchAt : List Char → Option (Nat × String)) :
    Nat → List Char → List String
  | 0, _ => []
  | _, [] => []
  | f + 1, c :: rest =>
    match matchAt (c :: rest) with
    | some (len, cap) => cap :: scanAux matchAt f ((c :: rest).drop (max len 1))
    | none => scanAux matchAt f rest

/-- `re.findall(pattern, text)` for a scanning pattern compiled to
`matchAt` (which returns the full match length and the captured group). -/
def scanFindAll (matchAt : List Char → Option (Nat × String)) (s : String) :
    List String :=
  scanAux matchAt (s.toList.length + 1) s.toList

/-- `r'[-*•]\s+([A-Z][A-Za-z\s]{5,40})'` at one position. -/
def matchBulletItem (cs : List Char) : Option (Nat × String) :=
  match cs with
  | [] => none
  | c :: rest =>
    if c = '-' || c = '*' || c = '•' then
      let ws := rest.takeWhile pyIsSpace
      if ws.isEmpty then none
      else
        match rest.drop ws.length with
        | [] => none
        | u :: t2 =>
          if u.isUpper then
            let k := min 40 (t2.takeWhile alphaSpace).length
            if 5 ≤ k then
              some (1 + ws.length + 1 + k, String.mk (u :: t2.take k))
            else none
          else none
    else none

/-- `r'\d+\)\s+([A-Z][A-Za-z\s]{5,40})'` at one position. -/
def matchNumberedItem (cs : List Char) : Option (Nat × String) :=
  let ds := cs.takeWhile Char.isDigit
  if ds.isEmpty then none
  else
    match cs.drop ds.length with
    | ')' :: t =>
      let ws := t.takeWhile pyIsSpace
      if ws.isEmpty then none
      else
        match t.drop ws.length with
        | [] => none
        | u :: t2 =>
          if u.isUpper then
            let k := min 40 (t2.takeWhile alphaSpace).length
            if 5 ≤ k then
              some (ds.length + 1 + ws.length + 1 + k, String.mk (u :: t2.take k))
            else none
          else none
    | _ => none

/-- Case-insensitive prefix test (`re.IGNORECASE`). -/
def ciIsPrefix : List Char → List Char → Bool
  | [], _ => true
  | _ :: _, [] => false
  | p :: ps, c :: cs => (p.toLower = c.toLower) && ciIsPrefix ps cs

/-- `r'(?:kw1|kw2|...)\s+([A-Za-z\s]{3,30})'` with `re.IGNORECASE` at one
position.  The group class includes whitespace, so the `\s+` backtracks from
its maximal run down to one character.  The keyword alternatives of the
source are mutually exclusive at any position, so ordered alternation is a
`find?`. -/
def matchContextAfterKw (keywords : List String) (cs : List Char) :
    Option (Nat × String) :=
  match keywords.find? (fun kw => ciIsPrefix kw.toList cs) with
  | none => none
  | some kw =>
    let rest := cs.drop kw.toList.length
    let maxWs := (rest.takeWhile pyIsSpace).length
    (((List.range maxWs).reverse).map (· + 1)).findSome? (fun w =>
      let t := rest.drop w
      let k := min 30 (t.takeWhile alphaSpace).length
      if 3 ≤ k then
        some (kw.toList.length + w + k, String.mk (t.take k))
      else none)

/-- `r'([A-Z][A-Za-z\s]{3,30})\s+(?:kw1|kw2|...)'` with `re.IGNORECASE` at
one position (`[A-Z]` matches any letter under `IGNORECASE`).  The keywords
start with non-whitespace, so `\s+` commits to its maximal run; the group
length backtracks greedily. -/
def matchContextBeforeKw (keywords : List String) (cs : List Char) :
    Option (Nat × String) :=
  match cs with
  | [] => none
  | c :: rest =>
    if c.isAlpha then
      let m := min 30 (rest.takeWhile alphaSpace).length
      ((List.range (m + 1)).reverse).findSome? (fun k =>
        if k < 3 then none
        else
          let t := rest.drop k
          let ws := (t.takeWhile pyIsSpace).length
          if ws = 0 then none
          else
            match keywords.find? (fun kw => ciIsPrefix kw.toList (t.drop ws)) with
            | some kw =>
              some (1 + k + ws + kw.toList.length, String.mk (c :: rest.take k))
            | none => none)
    else none

/-- `re.match` of `r'page\s*\d+'` / `r'figure\s*\d+'`: anchored prefix
match. -/
def matchPrefixRef (kw : String) (cs : List Char) : Bool :=
  if List.isPrefixOf kw.toList cs then
    match (cs.drop kw.toList.length).dropWhile pyIsSpace with
    | c :: _ => c.isDigit
    | [] => false
  else false

/-- The junk patterns of `_is_meaningful_topic` (`re.match` anchors at the
start). -/
def isJunk (termLower : String) : Bool :=
  let cs := termLower.toList
  (cs ≠ [] && cs.all Char.isDigit) ||
  (cs ≠ [] && cs.all (fun c => ¬ wordChar c)) ||
  matchPrefixRef "page" cs ||
  matchPrefixRef "figure" cs

/-- `_is_meaningful_topic` (`sw` is the processor's stopword set; the `0.6`
float threshold is the exact fraction `3/5`). -/
def isMeaningfulTopic (sw : List String) (term0 : String) : Bool :=
  let term := pyStrip term0
  let termLower := lowerStr term
  if term.length < 3 || 60 < term.length then false
  else if sw.contains termLower then false
  else if pfLt (pfOfNat (term.toList.countP Char.isAlpha))
      (pfMul (pfOfNat term.length) ⟨3, 5⟩) then false
  else if (pySplitWs termLower).all (fun w => sw.contains w) then false
  else if isJunk termLower then false
  else true

/-- `_has_meaning_indicators(word, text)`. -/
def hasMeaningIndicators (word text : String) : Bool :=
  let wordLower := lowerStr word
  let textLower := lowerStr text
  let sentencesWithWord := (splitOnDot textLower).filter
    (fun s => strContains s wordLower)
  if sentencesWithWord.length < 2 then false
  else
    let definitionContexts := [wordLower ++ " is", wordLower ++ " are",
      wordLower ++ " means", wordLower ++ " refers",
      "concept of " ++ wordLower, "understanding " ++ wordLower]
    let hasDefinitionContext := definitionContexts.any
      (fun ctx => strContains textLower ctx)
    let wordSentences := sentencesWithWord.filter
      (fun s => 5 < (pySplitWs s).length)
    hasDefinitionContext || 2 ≤ wordSentences.length

/-- `_extract_from_text_structure`: header patterns line by line (lines are
stripped first), then the bullet/numbered list patterns over the whole text;
candidates are filtered by `_is_meaningful_topic` and stripped.  At most
20. -/
def extractFromTextStructure (sw : List String) (text : String) :
    List String :=
  let lines := (chSplit (· = '\n') text.toList).map String.mk
  let headerTopics := lines.flatMap (fun line0 =>
    let line := pyStrip line0
    ([matchHeaderCapital line, matchHeaderNumbered line,
      matchHeaderAllCaps line, matchHeaderDecorated line].filterMap id
      ).filterMap (fun m =>
        if isMeaningfulTopic sw m then some (pyStrip m) else none))
  let listTopics :=
    (scanFindAll matchBulletItem text ++
     scanFindAll matchNumberedItem text).filterMap (fun m =>
      if isMeaningfulTopic sw m then some (pyStrip m) else none)
  (headerTopics ++ listTopics).take 20

/-- `Counter(xs).most_common(n)`: counts keyed in first-occurrence order,
stably sorted by descending count (Python's `most_common` sorts stably). -/
def mostCommon (n : Nat) (xs : List String) : List (String × Nat) :=
  let pairs := (dedupFirst xs).map (fun x => (x, xs.count x))
  (stableSort (fun a b => decide (b.2 ≤ a.2)) pairs).take n

/-- `_extract_high_frequency_terms`. -/
def extractHighFrequencyTerms (sw : List String) (text : String) :
    List String :=
  let words := findWordTokens 3 (lowerStr text)
  ((mostCommon 100 words).filterMap (fun wf =>
    if 3 ≤ wf.2 && 4 < wf.1.length && ¬ sw.contains wf.1 &&
        ¬ pyIsDigitStr wf.1 && hasMeaningIndicators wf.1 text then
      some (pyTitle wf.1)
    else none)).take 15

/-- The inner loop of `_extract_capitalized_nouns` over one tagged sentence:
collect maximal runs of capitalized noun-tagged non-stopword tokens; a run
is emitted when a non-matching token ends it (a run still open at the end of
the sentence is dropped, as in the source). -/
def collectNounRuns (sw : List String) (tagged : List (String × String)) :
    List String :=
  let isNounTag := fun (t : String) =>
    t = "NN" || t = "NNS" || t = "NNP" || t = "NNPS"
  (tagged.foldl (fun acc wt =>
    let (emitted, currentSeq) := acc
    if isNounTag wt.2 && startsWithUpper wt.1 && 2 < wt.1.length &&
        ¬ sw.contains (lowerStr wt.1) then
      (emitted, currentSeq ++ [wt.1])
    else if 1 ≤ currentSeq.length then
      let phrase := joinSep " " currentSeq
      if isMeaningfulTopic sw phrase then (emitted ++ [phrase], [])
      else (emitted, [])
    else (emitted, [])) ([], [])).1

/-- `_extract_capitalized_nouns` (pos-tagging of a sentence is the external
`tagger`); sentences of fewer than 10 stripped characters are skipped; terms
occurring at least twice among the first 20 most common are kept. -/
def extractCapitalizedNouns (sw : List String)
    (tagger : String → List (String × String)) (text : String) :
    List String :=
  let sentences := (reSplitPunct text).take 30
  let terms := sentences.flatMap (fun sentence =>
    if (pyStrip sentence).length < 10 then []
    else collectNounRuns sw (tagger sentence))
  ((mostCommon 20 terms).filter (fun tc => 2 ≤ tc.2)).map (·.1)

/-- `_extract_context_based_terms`: the four `IGNORECASE` context patterns
in order; matches are stripped, whitespace-collapsed, filtered and
title-cased.  At most 10. -/
def extractContextBasedTerms (sw : List String) (text : String) :
    List String :=
  let m1 := scanFindAll (matchContextAfterKw
    ["concept of", "definition of", "meaning of", "understanding"]) text
  let m2 := scanFindAll (matchContextBeforeKw
    ["is", "are", "means", "refers to"]) text
  let m3 := scanFindAll (matchContextAfterKw
    ["introducing", "explaining", "discussing"]) text
  let m4 := scanFindAll (matchContextBeforeKw
    ["involves", "includes", "contains"]) text
  ((m1 ++ m2 ++ m3 ++ m4).filterMap (fun m =>
    let cleaned := normalizeWs (pyStrip m)
    if isMeaningfulTopic sw cleaned then some (pyTitle cleaned)
    else none)).take 10

/-- `word_contexts[word].extend(vs)` after
`if word not in word_contexts: word_contexts[word] = []`. -/
def ctxExtend (dict : List (String × List String)) (k : String)
    (vs : List String) : List (String × List String) :=
  if dict.any (fun p => p.1 = k) then
    dict.map (fun p => if p.1 = k then (p.1, p.2 ++ vs) else p)
  else dict ++ [(k, vs)]

/-- `_extract_semantic_clusters`: per sentence, words are
`\b[A-Za-z]{4,}\b` tokens of the lowercased sentence that are non-stopwords
of more than 4 characters; each word accumulates a +-2-word window (itself
excluded); words whose context set has at least 5 distinct entries (and, as
the source re-checks, at least 3) are title-cased.  At most 10. -/
def extractSemanticClusters (sw : List String) (text : String) :
    List String :=
  let sentences := reSplitPunct text
  let wordContexts := sentences.foldl (fun dict sentence =>
    let words := (findWordTokens 4 (lowerStr sentence)).filter
      (fun w => ¬ sw.contains w && 4 < w.length)
    words.enum.foldl (fun dict iw =>
      let context := pySlice words (iw.1 - 2) (iw.1 + 3)
      ctxExtend dict iw.2 (context.filter (fun w => w ≠ iw.2))) dict) []
  (wordContexts.filterMap (fun wc =>
    if 5 ≤ (dedupFirst wc.2).length then
      if 3 ≤ (dedupFirst wc.2).length then some (pyTitle wc.1) else none
    else none)).take 10

/-- `_clean_and_filter_topics`: keep meaningful candidates, normalize
whitespace, title-case, deduplicate case-insensitively in first-seen
order. -/
def cleanAndFilterTopics (sw : List String) (topics : List String) :
    List String :=
  (topics.foldl (fun acc topic =>
    if ¬ isMeaningfulTopic sw topic then acc
    else
      let t := pyTitle (pyStrip (normalizeWs topic))
      let tLower := lowerStr t
      if acc.2.contains tLower then acc
      else (acc.1 ++ [t], tLower :: acc.2)) ([], [])).1

/-- `_rank_by_importance`: composite score (frequency, position, context,
word count, capitalization); topics with positive score, stably sorted by
descending score. -/
def rankByImportance (topics : List String) (text : String) : List String :=
  if topics.isEmpty then []
  else
    let textLower := lowerStr text
    let scored := topics.filterMap (fun topic =>
      let topicLower := lowerStr topic
      let frequency := pyCount textLower topicLower
      let firstPos := pyFind textLower topicLower
      let positionScore : PyFloat :=
        if 0 ≤ firstPos then pfDivNat (pfOfNat 1000) (firstPos.toNat + 1)
        else ⟨0, 1⟩
      let contextScore := 10 * ((splitOnDot textLower).filter
        (fun s => strContains s topicLower)).length
      let wordCountBonus := 50 * (pySplitWs topic).length
      let capitalizationBonus := if startsWithUpper topic then 100 else 0
      let totalScore := pfAdd (pfOfNat (frequency * 100))
        (pfAdd positionScore
          (pfOfNat (contextScore + wordCountBonus + capitalizationBonus)))
      if pfLt ⟨0, 1⟩ totalScore then some (topic, totalScore) else none)
    (stableSort (fun a b => pfLe b.2 a.2) scored).map (·.1)

/-- The literal stopword additions of `TextProcessor.__init__`
(lines 39-60 of the source). -/
def extraStopwords : List String :=
  ["it", "they", "we", "that", "this", "these", "those",
   "a", "an", "the", "is", "are", "was", "were", "be",
   "been", "being", "have", "has", "had", "do", "does",
   "did", "will", "would", "should", "could", "may",
   "might", "must", "can", "time", "need", "make",
   "use", "used", "using", "also", "one", "two", "three",
   "first", "second", "third", "many", "some", "more",
   "most", "other", "such", "no", "nor", "not", "only",
   "own", "same", "so", "than", "too", "very", "just",
   "but", "what", "which", "who", "when", "where", "why",
   "how", "all", "each", "every", "both", "few", "way",
   "work", "part", "take", "get", "give", "made", "find",
   "tell", "ask", "show", "try", "leave", "call", "back",
   "keep", "let", "put", "said", "know", "come", "look",
   "want", "seem", "feel", "new", "right", "good", "old",
   "great", "little", "own", "other", "last", "long",
   "small", "large", "next", "early", "young", "important",
   "few", "public", "bad", "same", "able", "page", "pages",
   "version", "number", "numbers", "chapter", "section",
   "figure", "table", "see", "show", "example", "examples"]

/-- `string.ascii_lowercase` as single-letter stopwords. -/
def asciiLowercaseStopwords : List String :=
  (List.range 26).map (fun i => String.mk [Char.ofNat (97 + i)])

/-- `[str(i) for i in range(100)]`. -/
def digitStopwords : List String :=
  (List.range 100).map (fun n => toString n)

/-- The symbol stopwords of `__init__`. -/
def symbolStopwords : List String :=
  ["=", "-", "_", "+", "*", "/", "\\", "|", "&", "%", "$", "#", "@", "!", "?"]

/-- The processor's full stopword set (`nltkBase` is the external NLTK
English list).  Membership is all that is ever used, so a list models the
Python set. -/
def mkStopwords (nltkBase : List String) : List String :=
  nltkBase ++ extraStopwords ++ asciiLowercaseStopwords ++ digitStopwords ++
    symbolStopwords

/-- `TextProcessor.extract_topics`: placeholder for short text, otherwise
the five extraction strategies concatenated, cleaned, ranked, and capped at
15. -/
def extractTopics (nltkBase : List String)
    (tagger : String → List (String × String)) (text : String) :
    List String :=
  if text.length < 50 then ["General Topic"]
  else
    let sw := mkStopwords nltkBase
    let topics :=
      extractFromTextStructure sw text ++
      extractHighFrequencyTerms sw text ++
      extractCapitalizedNouns sw tagger text ++
      extractContextBasedTerms sw text ++
      extractSemanticClusters sw text
    (rankByImportance (cleanAndFilterTopics sw topics) text).take 15

/-! ## Shared helper lemmas -/

theorem mem_mapIdx {l : List α} {f : Nat → α → β} {b : β}
    (h : b ∈ l.mapIdx f) : ∃ i x, x ∈ l ∧ b = f i x := by
  rw [List.mapIdx_eq_enum_map] at h
  rcases List.mem_map.mp h with ⟨p, hp, hb⟩
  rcases p with ⟨i, x⟩
  rcases List.mem_enumFrom hp with ⟨-, -, hx⟩
  refine ⟨i, x, ?_, hb.symm⟩
  rw [hx]
  exact List.getElem_mem _

theorem map_mapIdx_eq_range_map (l : List α) (f : Nat → α → β) (g : β → γ)
    (h : Nat → γ) (hfg : ∀ i x, g (f i x) = h i) :
    (l.mapIdx f).map g = (List.range l.length).map h := by
  rw [List.mapIdx_eq_enum_map, List.map_map, ← List.enum_map_fst l,
    List.map_map]
  exact List.map_congr_left (fun p _ => hfg p.1 p.2)

/-! ## Theorems for claim C1 -/

/-- C1, counterexample: with an empty topics list `create_concept_graph`
returns a graph with 0 nodes (so not at least 4 placeholder-labelled nodes
and not at least 3 edges as the claim states). -/
theorem claim_C1_counterexample :
    (createConceptGraph []
      "Machine learning is a method of data analysis.").nodes.length = 0 ∧
    ¬ 4 ≤ (createConceptGraph []
      "Machine learning is a method of data analysis.").nodes.length ∧
    ¬ 3 ≤ (createConceptGraph []
      "Machine learning is a method of data analysis.").edges.length := by
  decide

/-- C1 (amended): `create_concept_graph` substitutes no placeholder topics;
for an empty topics list it returns, for every text, the empty graph with 0
nodes, 0 edges and zero counts in the metadata. -/
theorem claim_C1_empty_topics_give_empty_graph (text : String) :
    createConceptGraph [] text =
      { nodes := [], edges := [],
        metadata := { total_nodes := 0, total_edges := 0 } } := rfl

/-! ## Theorems for claim C10 -/

theorem length_createNodes (topics : List String) :
    (createNodes topics).length = min topics.length 15 := by
  simp only [createNodes, List.length_append, List.length_mapIdx,
    List.length_take, List.length_drop]
  omega

theorem nodeId_mem_createNodes (topics : List String) (i : Nat)
    (h : i < min topics.length 15) :
    nodeId i ∈ (createNodes topics).map (·.id) := by
  have hlen : i < (createNodes topics).length := by
    rw [length_createNodes]; exact h
  refine List.mem_map.mpr ⟨(createNodes topics)[i], List.getElem_mem _, ?_⟩
  simp only [createNodes]
  rw [List.getElem_append]
  split
  · rw [List.getElem_mapIdx]
  · rename_i hge
    rw [List.getElem_mapIdx]
    have h5 : (List.mapIdx (fun i topic =>
        ({ id := nodeId i, label := String.mk (topic.toList.take 30),
           level := 0, type := "main", color := "#4CAF50" } : GNode))
        (topics.take 5)).length = min 5 topics.length := by
      rw [List.length_mapIdx, List.length_take]
    rw [h5] at hge
    show nodeId (i - (List.mapIdx _ (topics.take 5)).length + 5) = nodeId i
    rw [h5]
    congr 1
    omega

theorem mem_createEdges {topics : List String} {text : String} {e : GEdge}
    (he : e ∈ createEdges topics text) :
    ∃ i j, i < j ∧ j < min topics.length 15 ∧
      e.source = nodeId i ∧ e.target = nodeId j := by
  simp only [createEdges] at he
  split at he
  · rename_i hcond
    rcases List.mem_map.mp he with ⟨i, hi, hrfl⟩
    rw [List.mem_range] at hi
    have h2 : 2 ≤ topics.length := by
      have := (Bool.and_eq_true _ _).mp hcond
      exact of_decide_eq_true this.2
    exact ⟨i, i + 1, by omega, by omega, by rw [← hrfl], by rw [← hrfl]⟩
  · rcases List.mem_flatMap.mp he with ⟨p1, hp1, hinner⟩
    rcases List.mem_filterMap.mp hinner with ⟨p2, hp2, hsome⟩
    split at hsome
    · rename_i hij
      split at hsome
      · obtain rfl := Option.some.inj hsome
        have hb1 := List.mem_enumFrom hp1
        have hb2 := List.mem_enumFrom hp2
        simp only [List.length_take, Nat.zero_add] at hb1 hb2
        exact ⟨p1.1, p2.1, hij, by omega, rfl, rfl⟩
      · exact absurd hsome (by simp)
    · exact absurd hsome (by simp)

/-- C10: for every non-empty topics list and every text, the graph returned
by `create_concept_graph` is well-formed: the source and the target of every
edge are ids of nodes present in the returned node list. -/
theorem claim_C10_edges_well_formed (topics : List String) (text : String)
    (hne : topics ≠ []) (e : GEdge)
    (he : e ∈ (createConceptGraph topics text).edges) :
    e.source ∈ (createConceptGraph topics text).nodes.map (·.id) ∧
    e.target ∈ (createConceptGraph topics text).nodes.map (·.id) := by
  have hempty : topics.isEmpty = false := by
    cases topics with
    | nil => exact absurd rfl hne
    | cons a l => rfl
  unfold createConceptGraph at he ⊢
  rw [hempty] at he ⊢
  simp only [Bool.false_eq_true, if_false] at he ⊢
  rcases mem_createEdges he with ⟨i, j, hij, hj, hsrc, htgt⟩
  constructor
  · rw [hsrc]
    exact nodeId_mem_createNodes topics i (by omega)
  · rw [htgt]
    exact nodeId_mem_createNodes topics j hj

/-- C10, witness: for `topics = ["Alpha", "Beta"]` and empty text the single
fallback edge joins node ids that are both present in the node list. -/
theorem claim_C10_witness :
    ({ source := "node_0", target := "node_1", weight := 1,
       type := "related" } : GEdge).source ∈
      (createConceptGraph ["Alpha", "Beta"] "").nodes.map (·.id) ∧
    ({ source := "node_0", target := "node_1", weight := 1,
       type := "related" } : GEdge).target ∈
      (createConceptGraph ["Alpha", "Beta"] "").nodes.map (·.id) :=
  claim_C10_edges_well_formed ["Alpha", "Beta"] "" (by decide)
    { source := "node_0", target := "node_1", weight := 1, type := "related" }
    (by decide)

/-! ## Theorems for claim C2 -/

/-- C2, counterexample: on empty input `SummaryGenerator.generate` fails
with the propagated numeric `ZeroDivisionError` of the
`compression_ratio` computation, not with the guarded `EmptyInputError` the
claim states (no such guard exists in the code). -/
theorem claim_C2_counterexample :
    sgGenerate [] "" ⟨3, 10⟩ = .error .zeroDivisionError ∧
    sgGenerate [] "" ⟨3, 10⟩ ≠ .error .emptyInputError := by
  constructor
  · rfl
  · intro h
    rw [show sgGenerate [] "" ⟨3, 10⟩ = .error .zeroDivisionError from rfl] at h
    exact SGError.noConfusion (Except.error.inj h)

/-- C2 (amended): `generate` raises `ZeroDivisionError` (there is no
`EmptyInputError` guard) exactly when the input text contains no
whitespace-separated words — in particular on zero-length text; for every
text containing at least one word it returns normally, for any tokenizer
output and ratio. -/
theorem claim_C2_zero_division (sentences : List String) (text : String)
    (ratio : PyFloat) :
    ((pySplitWs text).length = 0 →
      sgGenerate sentences text ratio = .error .zeroDivisionError) ∧
    ((pySplitWs text).length ≠ 0 →
      ∃ s, sgGenerate sentences text ratio = .ok s) := by
  constructor
  · intro h
    simp only [sgGenerate, h, if_true]
  · intro h
    simp only [sgGenerate, if_neg h]
    exact ⟨_, rfl⟩

/-- C2, witness: the empty text raises `ZeroDivisionError`; a two-word text
returns normally. -/
theorem claim_C2_witness :
    sgGenerate ["hello world"] "" ⟨3, 10⟩ = .error .zeroDivisionError ∧
    ∃ s, sgGenerate ["hello world"] "hello world" ⟨3, 10⟩ = .ok s :=
  ⟨(claim_C2_zero_division ["hello world"] "" ⟨3, 10⟩).1 (by decide),
   (claim_C2_zero_division ["hello world"] "hello world" ⟨3, 10⟩).2 (by decide)⟩

/-! ## Theorems for claim C3 -/

/-- C3, counterexample: on a one-sentence text with `ratio = 0.5` the
summary consists of 1 sentence, not `max(3, round(1 × 0.5)) = 3` as the
claim states for every text and ratio in (0, 1]. -/
theorem claim_C3_counterexample :
    (summarySentences ["The cat sat on the mat"] "The cat sat on the mat"
        ⟨1, 2⟩).length ≠
      max 3 (pyRound (pfMul
        (pfOfNat (["The cat sat on the mat"] : List String).length)
        ⟨1, 2⟩)).toNat := by
  decide

/-- C3 (amended): the summary consists of exactly
`min(max(3, int(num_sentences × ratio)), number of distinct sentences)`
selected sentences: the code truncates with `int()` rather than rounding,
and the selection can never exceed the number of distinct sentences (the
score dict is keyed by sentence text). -/
theorem claim_C3_summary_count (sentences : List String) (text : String)
    (ratio : PyFloat) :
    (summarySentences sentences text ratio).length =
      min (numSelected sentences ratio) (dedupFirst sentences).length := by
  simp only [summarySentences, scoreSentences, List.length_map,
    length_stableSort, List.length_take]

/-! ## Theorems for claim C9 -/

/-- C9: the sentences of the generated summary appear in the same relative
order as they occur in the tokenized source text (non-decreasing first
occurrence index), for every text, tokenizer output, and ratio, regardless
of how the scores ranked them. -/
theorem claim_C9_order_preserved (sentences : List String) (text : String)
    (ratio : PyFloat) :
    (summarySentences sentences text ratio).Pairwise
      (fun a b => sentences.indexOf a ≤ sentences.indexOf b) := by
  unfold summarySentences
  apply List.Pairwise.map
    (R := fun (p q : String × PyFloat) =>
      (decide (sentences.indexOf p.1 ≤ sentences.indexOf q.1)) = true)
  · intro a b h
    exact of_decide_eq_true h
  · apply pairwise_stableSort
    · intro a b c h1 h2
      exact decide_eq_true
        (le_trans (of_decide_eq_true h1) (of_decide_eq_true h2))
    · intro a b
      rcases Nat.le_total (sentences.indexOf a.1) (sentences.indexOf b.1) with
        h | h
      · exact Or.inl (decide_eq_true h)
      · exact Or.inr (decide_eq_true h)

/-! ## Theorems for claim C5 -/

theorem fgGenerate_ids (l : List RawCard) :
    (l.mapIdx (fun i card =>
      ({ question := card.question, answer := card.answer,
         topic := card.topic, type := card.type, id := i + 1,
         difficulty := assignDifficulty card } : Card))).map (·.id) =
      (List.range l.length).map (fun i => i + 1) :=
  map_mapIdx_eq_range_map l _ _ _ (fun _ _ => rfl)

/-- C5: for every tokenized text, topics list, template choice and requested
count `N`, `FlashcardGenerator.generate` returns at most `N` flashcards, and
their `id` fields are exactly `1..len(result)` in list order (dense and
contiguous, assigned after deduplication and truncation). -/
theorem claim_C5_bounded_dense_ids (sentences topics : List String)
    (pick : Nat → String × String) (numCards : Nat) :
    (fgGenerate sentences topics pick numCards).length ≤ numCards ∧
    (fgGenerate sentences topics pick numCards).map (·.id) =
      List.range' 1 (fgGenerate sentences topics pick numCards).length := by
  constructor
  · simp only [fgGenerate, List.length_mapIdx]
    exact List.length_take_le _ _
  · simp only [fgGenerate]
    rw [fgGenerate_ids, List.length_mapIdx, List.range'_eq_map_range]
    exact List.map_congr_left (fun i _ => Nat.add_comm i 1)

/-! ## Theorems for claim C7 -/

theorem mem_removeDuplicatesAux {seen : List String} {l : List RawCard}
    {c : RawCard} (h : c ∈ removeDuplicatesAux seen l) : c ∈ l := by
  induction l generalizing seen with
  | nil => exact absurd h (by simp [removeDuplicatesAux])
  | cons x xs ih =>
    simp only [removeDuplicatesAux] at h
    split at h
    · exact List.mem_cons_of_mem _ (ih h)
    · rcases List.mem_cons.mp h with rfl | h2
      · exact List.mem_cons_self _ _
      · exact List.mem_cons_of_mem _ (ih h2)

theorem topic_of_definition_card {sentences topics : List String}
    {rc : RawCard} (h : rc ∈ extractDefinitionCards sentences topics) :
    rc.topic ∈ topics := by
  simp only [extractDefinitionCards] at h
  have h2 := List.Sublist.mem h (List.take_sublist _ _)
  rcases List.mem_filterMap.mp h2 with ⟨s, -, hf⟩
  split at hf
  · split at hf
    · rename_i topic heq
      split at hf
      · obtain rfl := Option.some.inj hf
        exact List.Sublist.mem (List.mem_of_find?_eq_some heq)
          (List.take_sublist _ _)
      · exact absurd hf (by simp)
    · exact absurd hf (by simp)
  · exact absurd hf (by simp)

theorem topic_of_concept_card {sentences topics : List String}
    {pick : Nat → String × String} {rc : RawCard}
    (h : rc ∈ generateConceptQuestions sentences topics pick) :
    rc.topic ∈ topics := by
  simp only [generateConceptQuestions] at h
  have h2 := List.Sublist.mem h (List.take_sublist _ _)
  rcases List.mem_filterMap.mp h2 with ⟨o, ho, hid⟩
  rcases mem_mapIdx ho with ⟨i, t, ht, rfl⟩
  simp only [id_eq] at hid
  split at hid
  · exact absurd hid (by simp)
  · obtain rfl := Option.some.inj hid
    exact List.Sublist.mem ht (List.take_sublist _ _)

theorem topic_of_comparison_card {sentences topics : List String}
    {rc : RawCard} (h : rc ∈ generateComparisonQuestions sentences topics) :
    ∃ t1 t2, t1 ∈ topics ∧ t2 ∈ topics ∧ rc.topic = t1 ++ " vs " ++ t2 := by
  simp only [generateComparisonQuestions] at h
  have h2 := List.Sublist.mem h (List.take_sublist _ _)
  rcases List.mem_filterMap.mp h2 with ⟨s, -, hf⟩
  split at hf
  · split at hf
    · rename_i t1 t2 rest heq
      obtain rfl := Option.some.inj hf
      have ht1 : t1 ∈ topics := by
        have : t1 ∈ topics.filter
            (fun topic => strContains (lowerStr s) (lowerStr topic)) := by
          rw [heq]; exact List.mem_cons_self _ _
        exact List.mem_of_mem_filter this
      have ht2 : t2 ∈ topics := by
        have : t2 ∈ topics.filter
            (fun topic => strContains (lowerStr s) (lowerStr topic)) := by
          rw [heq]; exact List.mem_cons_of_mem _ (List.mem_cons_self _ _)
        exact List.mem_of_mem_filter this
      exact ⟨t1, t2, ht1, ht2, rfl⟩
    · exact absurd hf (by simp)
  · exact absurd hf (by simp)

theorem topic_of_feature_card {sentences topics : List String}
    {rc : RawCard} (h : rc ∈ generateFeatureQuestions sentences topics) :
    rc.topic ∈ topics := by
  simp only [generateFeatureQuestions] at h
  have h2 := List.Sublist.mem h (List.take_sublist _ _)
  rcases List.mem_filterMap.mp h2 with ⟨s, -, hf⟩
  split at hf
  · split at hf
    · rename_i topic heq
      obtain rfl := Option.some.inj hf
      exact List.Sublist.mem (List.mem_of_find?_eq_some heq)
        (List.take_sublist _ _)
    · exact absurd hf (by simp)
  · exact absurd hf (by simp)

theorem topic_of_process_card {sentences topics : List String}
    {rc : RawCard} (h : rc ∈ generateProcessQuestions sentences topics) :
    rc.topic ∈ topics := by
  simp only [generateProcessQuestions] at h
  have h2 := List.Sublist.mem h (List.take_sublist _ _)
  rcases List.mem_filterMap.mp h2 with ⟨s, -, hf⟩
  split at hf
  · split at hf
    · rename_i topic heq
      obtain rfl := Option.some.inj hf
      exact List.Sublist.mem (List.mem_of_find?_eq_some heq)
        (List.take_sublist _ _)
    · exact absurd hf (by simp)
  · exact absurd hf (by simp)

/-- C7, counterexample: a comparison sentence over topics
`["Alpha", "Beta"]` produces a flashcard whose `topic` is `"Alpha vs Beta"`,
which is neither one of the input topics nor `"General"`. -/
theorem claim_C7_counterexample :
    ¬ (∀ c ∈ fgGenerate
        ["The difference between alpha and beta is quite clear to students."]
        ["Alpha", "Beta"] (fun _ => ("What is {}?", "definition")) 20,
        c.topic ∈ (["Alpha", "Beta"] : List String) ∨ c.topic = "General") := by
  decide

/-- C7 (amended): every flashcard returned by `FlashcardGenerator.generate`
has a `topic` that is either one of the input topics or a comparison label
`"<t1> vs <t2>"` built from two input topics; the `"General"` default
belongs to `LearningPathGenerator._group_by_topic` (for cards missing the
key), not to the flashcard generator. -/
theorem claim_C7_topic_provenance (sentences topics : List String)
    (pick : Nat → String × String) (numCards : Nat) (c : Card)
    (hc : c ∈ fgGenerate sentences topics pick numCards) :
    c.topic ∈ topics ∨
    ∃ t1 t2, t1 ∈ topics ∧ t2 ∈ topics ∧ c.topic = t1 ++ " vs " ++ t2 := by
  simp only [fgGenerate] at hc
  rcases mem_mapIdx hc with ⟨i, rc, hrc, rfl⟩
  show rc.topic ∈ topics ∨ _
  have h2 := List.Sublist.mem hrc (List.take_sublist _ _)
  have h3 := mem_removeDuplicatesAux h2
  rcases List.mem_append.mp h3 with h4 | hproc
  · rcases List.mem_append.mp h4 with h5 | hfeat
    · rcases List.mem_append.mp h5 with h6 | hcmp
      · rcases List.mem_append.mp h6 with hdef | hcon
        · exact Or.inl (topic_of_definition_card hdef)
        · exact Or.inl (topic_of_concept_card hcon)
      · exact Or.inr (topic_of_comparison_card hcmp)
    · exact Or.inl (topic_of_feature_card hfeat)
  · exact Or.inl (topic_of_process_card hproc)

/-- C7, witness: the comparison card of the counterexample scenario indeed
carries a topic of the form `"<t1> vs <t2>"` with both halves input
topics. -/
theorem claim_C7_witness :
    ({ question := "What is the difference between Alpha and Beta?",
       answer :=
         "The difference between alpha and beta is quite clear to students.",
       topic := "Alpha vs Beta", type := "comparison", id := 3,
       difficulty := "easy" } : Card).topic ∈ (["Alpha", "Beta"] : List String) ∨
    ∃ t1 t2, t1 ∈ (["Alpha", "Beta"] : List String) ∧
      t2 ∈ (["Alpha", "Beta"] : List String) ∧
      ({ question := "What is the difference between Alpha and Beta?",
         answer :=
           "The difference between alpha and beta is quite clear to students.",
         topic := "Alpha vs Beta", type := "comparison", id := 3,
         difficulty := "easy" } : Card).topic = t1 ++ " vs " ++ t2 :=
  claim_C7_topic_provenance
    ["The difference between alpha and beta is quite clear to students."]
    ["Alpha", "Beta"] (fun _ => ("What is {}?", "definition")) 20 _ (by decide)

/-! ## Theorems for claim C6 -/

theorem withEstimatedTime_status (s : Step) :
    (withEstimatedTime s).status = s.status := rfl

theorem withEstimatedTime_topic (s : Step) :
    (withEstimatedTime s).topic = s.topic := rfl

theorem withEstimatedTime_num_flashcards (s : Step) :
    (withEstimatedTime s).num_flashcards = s.num_flashcards := rfl

theorem withEstimatedTime_difficulty (s : Step) :
    (withEstimatedTime s).difficulty = s.difficulty := rfl

theorem withEstimatedTime_estimated_time (s : Step) :
    (withEstimatedTime s).estimated_time =
      estimateTime s.num_flashcards s.difficulty := rfl

theorem withPrerequisites_prerequisites (prereqs : List String) (s : Step) :
    (withPrerequisites prereqs s).prerequisites = prereqs := rfl

theorem withPrerequisites_status (prereqs : List String) (s : Step) :
    (withPrerequisites prereqs s).status = s.status := rfl

theorem withPrerequisites_topic (prereqs : List String) (s : Step) :
    (withPrerequisites prereqs s).topic = s.topic := rfl

theorem withPrerequisites_num_flashcards (prereqs : List String) (s : Step) :
    (withPrerequisites prereqs s).num_flashcards = s.num_flashcards := rfl

theorem withPrerequisites_difficulty (prereqs : List String) (s : Step) :
    (withPrerequisites prereqs s).difficulty = s.difficulty := rfl

theorem withPrerequisites_estimated_time (prereqs : List String) (s : Step) :
    (withPrerequisites prereqs s).estimated_time = s.estimated_time := rfl

/-- C6: in every learning path, the prerequisites of the step at index `i`
are exactly the topics of the earlier steps in order (so step 1 has none),
and step 1 has status `available` while every later step is `locked`. -/
theorem claim_C6_prerequisite_chain (topics : List String)
    (flashcards : List LPCard) (i : Nat)
    (hi : i < (lpGenerate topics flashcards).steps.length) :
    ((lpGenerate topics flashcards).steps[i]).prerequisites =
      ((lpGenerate topics flashcards).steps.take i).map (·.topic) ∧
    ((lpGenerate topics flashcards).steps[i]).status =
      (if i = 0 then "available" else "locked") := by
  simp only [lpGenerate] at hi ⊢
  rw [List.getElem_mapIdx]
  constructor
  · rw [withPrerequisites_prerequisites]
    apply List.ext_getElem
    · simp only [List.length_map, List.length_take, List.length_mapIdx]
    · intro n h1 h2
      simp only [List.getElem_map, List.getElem_take, List.getElem_mapIdx,
        withPrerequisites_topic]
  · rw [withPrerequisites_status, List.getElem_map, withEstimatedTime_status]
    simp only [createLearningSteps]
    rw [List.getElem_mapIdx]
    show (if 0 < i then "locked" else "available") = _
    rcases Nat.eq_zero_or_pos i with rfl | hpos
    · rfl
    · rw [if_pos hpos, if_neg (by omega : ¬ i = 0)]

/-- C6, witness: for two topics and no flashcards, step 2 has exactly the
first step's topic as prerequisite and is locked. -/
theorem claim_C6_witness :
    ((lpGenerate ["A", "B"] []).steps.get ⟨1, by decide⟩).prerequisites =
      ["A"] ∧
    ((lpGenerate ["A", "B"] []).steps.get ⟨1, by decide⟩).status = "locked" := by
  have h := claim_C6_prerequisite_chain ["A", "B"] [] 1 (by decide)
  exact ⟨h.1.trans (by decide), h.2.trans (by decide)⟩

/-! ## Theorems for claim C8 -/

/-- C8: every learning step's `estimated_time` equals
`int((15 + 2 × num_flashcards) × multiplier)` with multiplier 1/2/3 for
easy/medium/hard; in particular a step whose topic has no flashcards gets
difficulty `medium` and `estimated_time` 30. -/
theorem claim_C8_time_formula (topics : List String)
    (flashcards : List LPCard) (step : Step)
    (hs : step ∈ (lpGenerate topics flashcards).steps) :
    step.estimated_time =
      (15 + 2 * step.num_flashcards) * difficultyWeight step.difficulty ∧
    (step.num_flashcards = 0 →
      step.difficulty = "medium" ∧ step.estimated_time = 30) := by
  simp only [lpGenerate] at hs
  rcases mem_mapIdx hs with ⟨i, s1, hs1, rfl⟩
  rcases List.mem_map.mp hs1 with ⟨s0, hs0, rfl⟩
  simp only [createLearningSteps] at hs0
  rcases mem_mapIdx hs0 with ⟨j, t, ht, rfl⟩
  simp only [withPrerequisites_estimated_time,
    withPrerequisites_num_flashcards, withPrerequisites_difficulty,
    withEstimatedTime_estimated_time, withEstimatedTime_num_flashcards,
    withEstimatedTime_difficulty]
  constructor
  · show estimateTime (topicBucket flashcards t).length
      (determineStepDifficulty (topicBucket flashcards t)) = _
    simp only [estimateTime]
    rw [Nat.mul_comm (topicBucket flashcards t).length 2]
  · intro h0
    have hb : topicBucket flashcards t = [] :=
      List.length_eq_zero.mp h0
    constructor
    · show determineStepDifficulty (topicBucket flashcards t) = "medium"
      rw [hb]
      rfl
    · show estimateTime (topicBucket flashcards t).length
        (determineStepDifficulty (topicBucket flashcards t)) = 30
      rw [hb]
      rfl

/-- C8, witness: a single topic with no flashcards gives a `medium` step of
30 minutes satisfying the formula. -/
theorem claim_C8_witness :
    ((lpGenerate ["A"] []).steps.get ⟨0, by decide⟩).difficulty = "medium" ∧
    ((lpGenerate ["A"] []).steps.get ⟨0, by decide⟩).estimated_time = 30 := by
  have h := claim_C8_time_formula ["A"] []
    ((lpGenerate ["A"] []).steps.get ⟨0, by decide⟩) (by decide)
  have h2 := h.2 (by decide)
  exact ⟨h2.1, h2.2⟩

/-! ## Theorems for claim C4 -/

/-- C4, counterexample: a 53-character text made of dots passes the length
guard yet yields zero topics (no strategy produces a candidate), refuting
the claimed lower bound of 1 topic for every text of length at least 50. -/
theorem claim_C4_counterexample :
    50 ≤ ("....................................................." : String).length ∧
    (extractTopics [] (fun _ => [])
      ".....................................................").length = 0 := by
  constructor
  · decide
  · rfl

/-- C4 (amended): for every stopword base, tagger, and text of length at
least 50, `extract_topics` returns at most 15 topics (possibly zero — the
claimed lower bound of 1 does not hold); for text shorter than 50 characters
it returns exactly the single placeholder `["General Topic"]` with no
heuristics run. -/
theorem claim_C4_topic_count (nltkBase : List String)
    (tagger : String → List (String × String)) (text : String) :
    (50 ≤ text.length → (extractTopics nltkBase tagger text).length ≤ 15) ∧
    (text.length < 50 →
      extractTopics nltkBase tagger text = ["General Topic"]) := by
  constructor
  · intro h
    simp only [extractTopics, if_neg (by omega : ¬ text.length < 50)]
    exact List.length_take_le _ _
  · intro h
    simp only [extractTopics, if_pos h]

/-- C4, witness: a 77-character prose text yields at most 15 topics; a short
text yields the placeholder. -/
theorem claim_C4_witness :
    (extractTopics [] (fun _ => [])
      "Machine learning is a method of data analysis that automates model building.").length ≤ 15 ∧
    extractTopics [] (fun _ => []) "tiny text" = ["General Topic"] :=
  ⟨(claim_C4_topic_count [] (fun _ => []) _).1 (by decide),
   (claim_C4_topic_count [] (fun _ => []) _).2 (by decide)⟩

end StudyGen
